import Mathlib

/-!
Verification of the Intelligent Content API backend against its design
specification.  The definitions below are a shallow embedding of the
Python source (`app/main.py`, `app/utils/auth.py`): Python strings are
Lean `String`s (sequences of code points), a database table is a list of
records and `query(...).filter(...).first()` is `List.find?` on the
filter predicate, HTTP exceptions are explicit `HTTPError` values carried
in `Except`, and the external capabilities that are not part of this
repository's code (the OpenAI client and the passlib / jose libraries)
are modelled as explicit parameters or data, following the spec's
description of them as opaque collaborators.
-/

namespace ContentAPI

/-- Python's substring test `w in t`, on code-point sequences:
`w` occurs contiguously inside `t`. -/
def strContainsSub (t w : String) : Bool :=
  t.data.tails.any (fun s => w.data.isPrefixOf s)

/-- Python's `t.lower()` as the per-code-point ASCII case map.  The marker
words scanned by `simple_fallback` are ASCII, for which this agrees with
Python's `str.lower`. -/
def pyLower (t : String) : String := String.mk (t.data.map Char.toLower)

/-- The positive sentiment markers of `simple_fallback` (app/main.py line 69). -/
def positiveWords : List String := ["good", "great", "excellent", "love", "happy"]

/-- The negative sentiment markers of `simple_fallback` (app/main.py line 71). -/
def negativeWords : List String := ["bad", "terrible", "awful", "hate", "sad"]

/-- `simple_fallback` (app/main.py lines 66-74): lowercases the text
(`t.lower()`), scans for positive then negative markers, and truncates
the summary at 200 code points (`t if len(t) <= 200 else t[:200] + "..."`). -/
def simple_fallback (t : String) : String × String :=
  let lowered := pyLower t
  let sentiment :=
    if positiveWords.any (fun w => strContainsSub lowered w) then "Positive"
    else if negativeWords.any (fun w => strContainsSub lowered w) then "Negative"
    else "Neutral"
  let summary := if t.length ≤ 200 then t else String.mk (t.data.take 200) ++ "..."
  (summary, sentiment)

/-- The environment of `analyze_text_with_llm`: whether `OPENAI_API_KEY`
is set (truthy), whether `openai_client` was constructed, and the external
provider call itself.  `provider text = some (summary, sentiment)` models
a completed call whose JSON parsed with both keys; `none` models any
raised error (network, auth, malformed response, missing key), which the
source catches and swallows (app/main.py lines 102-105). -/
structure LLMEnv where
  apiKeySet : Bool
  clientAvailable : Bool
  provider : String → Option (String × String)

/-- `analyze_text_with_llm` (app/main.py lines 58-105): with no key or no
client it returns the fallback directly; otherwise it returns the
provider's parsed result verbatim, falling back on any error. -/
def analyze_text_with_llm (env : LLMEnv) (text : String) : String × String :=
  if !env.apiKeySet || !env.clientAvailable then
    simple_fallback text
  else
    match env.provider text with
    | some r => r
    | none => simple_fallback text

/-- The input `"x" * 250` used by the spec's concrete test. -/
def xs250 : String := String.mk (List.replicate 250 'x')

/-- Modelled from the spec: `app/db/models.py` (the SQLAlchemy ORM
declarations) is not under `src/`.  A user record per spec section 3 and
the attribute accesses in `app/main.py`:
`{id, email (unique, case-sensitive as stored), hashed_password}`. -/
structure User where
  id : Nat
  email : String
  hashed_password : String
deriving DecidableEq

/-- Modelled from the spec: `app/db/models.py` is not under `src/`.  A
content record per spec section 3 and the attribute accesses in
`app/main.py`: raw text, optional analysis results, owner reference
(`user_id`) and creation timestamp. -/
structure Content where
  id : Nat
  text : String
  summary : Option String
  sentiment : Option String
  user_id : Nat
  created_at : Nat
deriving DecidableEq

/-- A FastAPI `HTTPException`, observed as its status code and detail. -/
structure HTTPError where
  status_code : Nat
  detail : String
deriving DecidableEq

/-- The 404 raised by `get_content` / `delete_content` (app/main.py
lines 209 and 228). -/
def contentNotFound : HTTPError := ⟨404, "Content not found."⟩

/-- The generic 401 raised by `login` (app/main.py lines 148-151). -/
def loginFailed : HTTPError := ⟨401, "Incorrect email or password."⟩

/-- The generic 401 `credentials_exception` of `get_current_user`
(app/utils/auth.py lines 46-50). -/
def credentialsException : HTTPError := ⟨401, "Could not validate credentials."⟩

/-- The 400 raised by `signup` on a duplicate email (app/main.py line 125). -/
def duplicateEmail : HTTPError := ⟨400, "Email already registered."⟩

/-- `db.query(User).filter(User.email == email).first()`
(app/main.py lines 121-123 and 141-145, app/utils/auth.py lines 38-39). -/
def findUserByEmail (db : List User) (email : String) : Option User :=
  db.find? (fun u => u.email == email)

/-- `signup` (app/main.py lines 116-132): reject when a record with the
same email exists, otherwise insert a new user with the hashed password.
`newId` stands for the id the store assigns on insert. -/
def signup (db : List User) (hashFn : String → String) (newId : Nat)
    (email password : String) : Except HTTPError (List User × User) :=
  match findUserByEmail db email with
  | some _ => .error duplicateEmail
  | none =>
      let user : User := ⟨newId, email, hashFn password⟩
      .ok (db ++ [user], user)

/-- Modelled from the spec: `app/data_models/user_model.py` is not under
`src/`.  The bearer-token response of `login`. -/
structure Token where
  access_token : String
deriving DecidableEq

/-- `login` (app/main.py lines 135-154): look the user up by email
(`form_data.username`); if absent or password verification fails, raise
the one generic 401; otherwise issue a token for the user's email.
`verify` is the passlib capability and `issue` is `create_access_token`. -/
def login (db : List User) (verify : String → String → Bool)
    (issue : String → String) (username password : String) :
    Except HTTPError Token :=
  match findUserByEmail db username with
  | none => .error loginFailed
  | some user =>
      if verify password user.hashed_password then .ok ⟨issue user.email⟩
      else .error loginFailed

/-- The ownership-scoped lookup shared by `get_content` and
`delete_content` (app/main.py lines 200-207 and 219-226):
`filter(Content.id == content_id, Content.user_id == current_user.id).first()`. -/
def findOwnedContent (db : List Content) (uid cid : Nat) : Option Content :=
  db.find? (fun c => c.id == cid && c.user_id == uid)

/-- `get_content` (app/main.py lines 194-210): 404 when the scoped lookup
finds nothing, the record otherwise. -/
def get_content (db : List Content) (uid cid : Nat) : Except HTTPError Content :=
  match findOwnedContent db uid cid with
  | none => .error contentNotFound
  | some c => .ok c

/-- `delete_content` (app/main.py lines 213-232): 404 when the scoped
lookup finds nothing; otherwise `db.delete(content)` removes the row with
that primary key (the found record's `id`, which equals `cid`), giving
the new table. -/
def delete_content (db : List Content) (uid cid : Nat) :
    Except HTTPError (List Content) :=
  match findOwnedContent db uid cid with
  | none => .error contentNotFound
  | some _ => .ok (db.filter (fun c => !(c.id == cid)))

/-- The `ORDER BY created_at DESC` ordering of `list_contents`. -/
def createdDesc (a b : Content) : Prop := b.created_at ≤ a.created_at

instance : DecidableRel createdDesc := fun _ _ => Nat.decLe _ _

instance : IsTotal Content createdDesc :=
  ⟨fun a b => le_total b.created_at a.created_at⟩

instance : IsTrans Content createdDesc :=
  ⟨fun _ _ _ h₁ h₂ => le_trans h₂ h₁⟩

/-- `list_contents` (app/main.py lines 180-191):
`filter(Content.user_id == current_user.id).order_by(created_at.desc()).all()`.
The SQL engine guarantees only the resulting order; any correct sort by
descending `created_at` models it, here insertion sort. -/
def list_contents (db : List Content) (uid : Nat) : List Content :=
  List.insertionSort createdDesc (db.filter (fun c => c.user_id == uid))

/-- A decoded JWT payload: the optional `"sub"` claim
(`payload.get("sub")`, app/utils/auth.py line 53) and the `"exp"` expiry
timestamp set by `create_access_token` (app/utils/auth.py line 34). -/
structure TokenPayload where
  sub : Option String
  exp : Nat
deriving DecidableEq

/-- Modelled from the spec: jose's token representation (an external
library, not under `src/`).  A bearer token is either structurally
unparseable or a payload signed with some key. -/
inductive JWT where
  | malformed : JWT
  | signed (payload : TokenPayload) (key : String) : JWT
deriving DecidableEq

/-- Modelled from the spec: jose's `jwt.decode(token, secret, algorithms)`
(app/utils/auth.py line 52 calls it; the library is not under `src/`).
Per spec section 4.2 it rejects tokens whose signature does not verify
(signing key differs from the process secret), whose expiry has passed
(`exp` before `now`, exact comparison, no clock-skew tolerance), or whose
structure is unparseable; `none` models the raised `JWTError`. -/
def jwtDecode (secret : String) (now : Nat) (t : JWT) : Option TokenPayload :=
  match t with
  | .malformed => none
  | .signed p key =>
      if key == secret then (if p.exp < now then none else some p) else none

/-- `get_current_user` (app/utils/auth.py lines 42-62): every decode
failure, a missing `"sub"` claim, and an unknown subject email all raise
the same `credentials_exception`; otherwise the looked-up user is
returned. -/
def get_current_user (secret : String) (now : Nat) (db : List User)
    (t : JWT) : Except HTTPError User :=
  match jwtDecode secret now t with
  | none => .error credentialsException
  | some payload =>
      match payload.sub with
      | none => .error credentialsException
      | some email =>
          match findUserByEmail db email with
          | none => .error credentialsException
          | some user => .ok user

/-- Modelled from the spec: the passlib `CryptContext` capability
(external, not under `src/`).  `accepts` is the underlying hash
comparison on a recognized hash; `recognizes` tells whether a hash string
is well-formed for a configured scheme. -/
structure CryptContext where
  accepts : String → String → Bool
  recognizes : String → Bool

/-- A Python call observed as either a returned value or a raised
exception. -/
inductive PyResult (α : Type) where
  | ok (a : α) : PyResult α
  | raised : PyResult α
deriving DecidableEq

/-- Modelled from the spec: `CryptContext.verify` per spec section 4.1 —
"constant-effort comparison; never raises on malformed hash, returns
false instead". -/
def ctxVerify (ctx : CryptContext) (plain hashed : String) : PyResult Bool :=
  if ctx.recognizes hashed then .ok (ctx.accepts plain hashed) else .ok false

/-- `verify_password` (app/utils/auth.py lines 26-27): delegates to the
context's verify. -/
def verify_password (ctx : CryptContext) (plain hashed : String) : PyResult Bool :=
  ctxVerify ctx plain hashed

/-- The fallback sentiment is always one of the three enumerated values. -/
theorem simple_fallback_sentiment_mem (t : String) :
    (simple_fallback t).2 ∈ (["Positive", "Negative", "Neutral"] : List String) := by
  unfold simple_fallback
  by_cases hp : (positiveWords.any fun w => strContainsSub (pyLower t) w) = true
  · simp [hp]
  · by_cases hn : (negativeWords.any fun w => strContainsSub (pyLower t) w) = true
    · simp [hp, hn]
    · simp [hp, hn]

/-- Appending the three-code-point marker `"..."` adds exactly 3 to the
length. -/
theorem length_mk_append_dots (l : List Char) :
    (String.mk l ++ "...").length = l.length + 3 := by
  simp [String.length, String.append]

/-- A signup attempt fails with the duplicate error exactly when a stored
record already carries the same email. -/
theorem signup_dup_iff (db : List User) (hashFn : String → String)
    (newId : Nat) (email password : String) :
    (∃ u ∈ db, u.email = email) ↔
      signup db hashFn newId email password = .error duplicateEmail := by
  have hiff : (∃ u ∈ db, u.email = email) ↔ (findUserByEmail db email).isSome := by
    rw [findUserByEmail, List.find?_isSome]
    simp
  rw [hiff]
  cases hf : findUserByEmail db email with
  | none => simp [signup, hf]
  | some u => simp [signup, hf]

/-- Claim C2: in the local fallback path the summary equals the text
unchanged when the text has at most 200 code points, and otherwise equals
the first 200 code points followed by the marker `"..."`; accordingly its
length is the text's length in the first case and exactly 203 in the
second. -/
theorem fallback_summary_rule (t : String) :
    (simple_fallback t).1 =
      (if t.length ≤ 200 then t else String.mk (t.data.take 200) ++ "...") ∧
    (simple_fallback t).1.length = (if t.length ≤ 200 then t.length else 203) := by
  refine ⟨rfl, ?_⟩
  unfold simple_fallback
  by_cases h : t.length ≤ 200
  · simp [h]
  · have hlen : t.data.length = t.length := rfl
    simp only [h, if_false, length_mk_append_dots, List.length_take, hlen]
    omega

/-- Claim C3: the fallback sentiment is `"Positive"` exactly when the
lowered text contains a positive marker, `"Negative"` exactly when it
contains a negative but no positive marker (the positive scan takes
precedence), and `"Neutral"` exactly when it contains neither; the empty
string yields an empty summary and `"Neutral"`. -/
theorem fallback_sentiment_scan (t : String) :
    ((simple_fallback t).2 = "Positive" ↔
      ∃ w ∈ positiveWords, strContainsSub (pyLower t) w = true) ∧
    ((simple_fallback t).2 = "Negative" ↔
      (¬ ∃ w ∈ positiveWords, strContainsSub (pyLower t) w = true) ∧
      ∃ w ∈ negativeWords, strContainsSub (pyLower t) w = true) ∧
    ((simple_fallback t).2 = "Neutral" ↔
      (¬ ∃ w ∈ positiveWords, strContainsSub (pyLower t) w = true) ∧
      ¬ ∃ w ∈ negativeWords, strContainsSub (pyLower t) w = true) ∧
    simple_fallback "" = ("", "Neutral") := by
  have hP : (∃ w ∈ positiveWords, strContainsSub (pyLower t) w = true) ↔
      (positiveWords.any fun w => strContainsSub (pyLower t) w) = true :=
    List.any_eq_true.symm
  have hN : (∃ w ∈ negativeWords, strContainsSub (pyLower t) w = true) ↔
      (negativeWords.any fun w => strContainsSub (pyLower t) w) = true :=
    List.any_eq_true.symm
  refine ⟨?_, ?_, ?_, by decide⟩ <;> rw [hP] <;> try rw [hN]
  all_goals {
    unfold simple_fallback
    by_cases hp : (positiveWords.any fun w => strContainsSub (pyLower t) w) = true <;>
      by_cases hn : (negativeWords.any fun w => strContainsSub (pyLower t) w) = true <;>
      simp [hp, hn]
  }

/-- Claim C1: with the external provider unconfigured,
`analyze_text_with_llm` is total and coincides with the local fallback,
so its sentiment is one of the three enumerated values for every input;
concretely `analyze("great day") = ("great day", "Positive")` and
`analyze("x"*250)` has a summary of length 203 with sentiment
`"Neutral"`. -/
theorem analyze_unconfigured (env : LLMEnv) (text : String)
    (h : env.apiKeySet = false ∨ env.clientAvailable = false) :
    analyze_text_with_llm env text = simple_fallback text ∧
    (analyze_text_with_llm env text).2 ∈ (["Positive", "Negative", "Neutral"] : List String) ∧
    analyze_text_with_llm env "great day" = ("great day", "Positive") ∧
    (analyze_text_with_llm env xs250).1.length = 203 ∧
    (analyze_text_with_llm env xs250).2 = "Neutral" := by
  have hfb : ∀ s : String, analyze_text_with_llm env s = simple_fallback s := by
    intro s
    unfold analyze_text_with_llm
    rcases h with h | h <;> simp [h]
  refine ⟨hfb text, ?_, ?_, ?_, ?_⟩
  · rw [hfb]; exact simple_fallback_sentiment_mem text
  · rw [hfb]
    decide
  · rw [hfb]
    set_option maxRecDepth 10000 in decide
  · rw [hfb]
    set_option maxRecDepth 10000 in decide

/-- Witness for `analyze_unconfigured` at a concrete unconfigured
environment and input. -/
theorem analyze_unconfigured_witness :
    analyze_text_with_llm ⟨false, false, fun _ => none⟩ "great day" =
      ("great day", "Positive") :=
  (analyze_unconfigured ⟨false, false, fun _ => none⟩ "great day" (Or.inl rfl)).2.2.1

/-- Claim C4: whenever no stored record has both the requested id and the
requesting owner — covering a nonexistent id and a record owned by a
different user alike — `get_content` and `delete_content` return the one
identical 404 outcome; and after a successful delete, a second delete (or
get) of the same id by the same user returns that same 404. -/
theorem ownership_scoped_404 (db : List Content) (uid cid : Nat) :
    ((¬ ∃ c ∈ db, c.id = cid ∧ c.user_id = uid) →
      get_content db uid cid = .error contentNotFound ∧
      delete_content db uid cid = .error contentNotFound) ∧
    (∀ db', delete_content db uid cid = .ok db' →
      delete_content db' uid cid = .error contentNotFound ∧
      get_content db' uid cid = .error contentNotFound) := by
  constructor
  · intro habs
    have hfind : findOwnedContent db uid cid = none := by
      rw [findOwnedContent, List.find?_eq_none]
      intro c hc
      simp only [Bool.and_eq_true, beq_iff_eq, not_and]
      intro h1 h2
      exact habs ⟨c, hc, h1, h2⟩
    exact ⟨by rw [get_content, hfind], by rw [delete_content, hfind]⟩
  · intro db' hdel
    have hdb' : db' = db.filter (fun c => !(c.id == cid)) := by
      rw [delete_content] at hdel
      cases hfc : findOwnedContent db uid cid with
      | none => rw [hfc] at hdel; exact absurd hdel (by simp)
      | some c => rw [hfc] at hdel; simpa using hdel.symm
    have hfind' : findOwnedContent db' uid cid = none := by
      rw [findOwnedContent, List.find?_eq_none]
      intro c hc
      rw [hdb', List.mem_filter] at hc
      simp only [Bool.not_eq_eq_eq_not, Bool.not_true, beq_eq_false_iff_ne] at hc
      simp only [Bool.and_eq_true, beq_iff_eq, not_and]
      intro h1 _
      exact absurd h1 hc.2
    exact ⟨by rw [delete_content, hfind'], by rw [get_content, hfind']⟩

/-- Witness for `ownership_scoped_404`: user 1 requesting a record that
exists but is owned by user 2 gets the not-found outcome on both get and
delete. -/
theorem ownership_scoped_404_witness :
    get_content [⟨1, "t", none, none, 2, 0⟩] 1 1 = .error contentNotFound ∧
    delete_content [⟨1, "t", none, none, 2, 0⟩] 1 1 = .error contentNotFound :=
  (ownership_scoped_404 [⟨1, "t", none, none, 2, 0⟩] 1 1).1 (by decide)

/-- Claim C5: a login that fails because no user record has the given
email, and one that fails because password verification returns false,
produce the same generic 401; moreover every failing login produces
exactly that one error value. -/
theorem login_generic_401 (db : List User) (verify : String → String → Bool)
    (issue : String → String) (username password : String) :
    (findUserByEmail db username = none →
      login db verify issue username password = .error loginFailed) ∧
    (∀ u, findUserByEmail db username = some u →
      verify password u.hashed_password = false →
      login db verify issue username password = .error loginFailed) ∧
    (∀ e, login db verify issue username password = .error e → e = loginFailed) := by
  refine ⟨fun h => by rw [login, h], fun u hu hv => by rw [login, hu]; simp [hv], ?_⟩
  intro e he
  rw [login] at he
  cases hf : findUserByEmail db username with
  | none => rw [hf] at he; simpa using he.symm
  | some u =>
      rw [hf] at he
      by_cases hv : verify password u.hashed_password = true
      · simp [hv] at he
      · simp only [Bool.not_eq_true] at hv
        simp [hv] at he
        exact he.symm

/-- Witness for `login_generic_401`: a login against an empty user table
fails with the generic 401. -/
theorem login_generic_401_witness :
    login [] (fun _ _ => true) (fun _ => "tok") "a@b.c" "pw" = .error loginFailed :=
  (login_generic_401 [] (fun _ _ => true) (fun _ => "tok") "a@b.c" "pw").1 rfl

/-- Claim C6: signup fails with the duplicate-email 400 exactly when a
stored record carries the identical (case-sensitive) email; a signup with
a fresh email succeeds and stores that email, and a second signup with
the same email against the resulting table fails with the duplicate
error. -/
theorem signup_duplicate_email (db : List User) (hashFn : String → String)
    (newId : Nat) (email password : String) :
    ((∃ u ∈ db, u.email = email) ↔
      signup db hashFn newId email password = .error duplicateEmail) ∧
    ((¬ ∃ u ∈ db, u.email = email) →
      ∃ db₂ u, signup db hashFn newId email password = .ok (db₂, u) ∧
        u.email = email) ∧
    (∀ db₂ u, signup db hashFn newId email password = .ok (db₂, u) →
      ∀ newId₂ password₂,
        signup db₂ hashFn newId₂ email password₂ = .error duplicateEmail) := by
  have hiff : (∃ u ∈ db, u.email = email) ↔ (findUserByEmail db email).isSome := by
    rw [findUserByEmail, List.find?_isSome]
    simp
  refine ⟨signup_dup_iff db hashFn newId email password, ?_, ?_⟩
  · intro h
    rw [hiff] at h
    cases hf : findUserByEmail db email with
    | none => exact ⟨_, _, by rw [signup, hf], rfl⟩
    | some u => rw [hf] at h; simp at h
  · intro db₂ u hok newId₂ password₂
    rw [signup] at hok
    cases hf : findUserByEmail db email with
    | some v => rw [hf] at hok; simp at hok
    | none =>
        rw [hf] at hok
        simp only [Except.ok.injEq, Prod.mk.injEq] at hok
        have hdb₂ : db₂ = db ++ [⟨newId, email, hashFn password⟩] := hok.1.symm
        have hmem : (⟨newId, email, hashFn password⟩ : User) ∈ db₂ := by
          rw [hdb₂]; simp
        have : ∃ w ∈ db₂, w.email = email := ⟨_, hmem, rfl⟩
        exact (signup_dup_iff db₂ hashFn newId₂ email password₂).mp this

/-- Witness for `signup_duplicate_email`: a first signup succeeds, a
second one with the same email fails with the duplicate error. -/
theorem signup_duplicate_email_witness :
    (signup [] (fun p => p) 1 "a@b.c" "pw" =
      .ok ([⟨1, "a@b.c", "pw"⟩], ⟨1, "a@b.c", "pw"⟩)) ∧
    signup [⟨1, "a@b.c", "pw"⟩] (fun p => p) 2 "a@b.c" "pw" =
      .error duplicateEmail := by
  constructor
  · rfl
  · exact (signup_duplicate_email [⟨1, "a@b.c", "pw"⟩] (fun p => p) 2 "a@b.c" "pw").1.mp
      ⟨⟨1, "a@b.c", "pw"⟩, by decide⟩

/-- Claim C7: a malformed token, a token signed with the wrong key, and a
token whose expiry has passed are all rejected with the same generic 401
`credentials_exception`; and any accepted request comes from a correctly
signed, unexpired token whose embedded subject is the returned user's
email. -/
theorem token_validation (secret : String) (now : Nat) (db : List User) (t : JWT) :
    (t = .malformed → get_current_user secret now db t = .error credentialsException) ∧
    (∀ p key, t = .signed p key → key ≠ secret →
      get_current_user secret now db t = .error credentialsException) ∧
    (∀ p key, t = .signed p key → p.exp < now →
      get_current_user secret now db t = .error credentialsException) ∧
    (∀ u, get_current_user secret now db t = .ok u →
      ∃ p, t = .signed p secret ∧ ¬ p.exp < now ∧ p.sub = some u.email ∧
        findUserByEmail db u.email = some u) := by
  refine ⟨?_, ?_, ?_, ?_⟩
  · intro h
    rw [h, get_current_user]
    rfl
  · intro p key ht hkey
    rw [ht, get_current_user, jwtDecode]
    simp [hkey]
  · intro p key ht hexp
    rw [ht, get_current_user, jwtDecode]
    by_cases hkey : key = secret
    · simp [hkey, hexp]
    · simp [hkey]
  · intro u hok
    cases hdec : jwtDecode secret now t with
    | none =>
        simp only [get_current_user, hdec] at hok
        exact Except.noConfusion hok
    | some p =>
        cases hsub : p.sub with
        | none =>
            simp only [get_current_user, hdec, hsub] at hok
            exact Except.noConfusion hok
        | some email =>
            cases hf : findUserByEmail db email with
            | none =>
                simp only [get_current_user, hdec, hsub, hf] at hok
                exact Except.noConfusion hok
            | some v =>
                simp only [get_current_user, hdec, hsub, hf, Except.ok.injEq] at hok
                subst u
                have hemail : v.email = email := by
                  simpa using List.find?_some hf
                cases t with
                | malformed =>
                    simp only [jwtDecode] at hdec
                    exact Option.noConfusion hdec
                | signed q key =>
                    simp only [jwtDecode] at hdec
                    by_cases hkey : key = secret
                    · by_cases hexp : q.exp < now
                      · simp [hkey, hexp] at hdec
                      · simp only [hkey, beq_self_eq_true, if_true, hexp,
                          ite_false] at hdec
                        obtain rfl : q = p := by simpa using hdec
                        refine ⟨q, by rw [hkey], hexp, ?_, ?_⟩
                        · rw [hemail]
                          exact hsub
                        · rw [hemail]
                          exact hf
                    · simp [hkey] at hdec

/-- Witness for `token_validation`: a malformed token is rejected with
the generic 401. -/
theorem token_validation_witness :
    get_current_user "s" 0 [] .malformed = .error credentialsException :=
  (token_validation "s" 0 [] .malformed).1 rfl

/-- Claim C10: a correctly signed, unexpired token is still rejected with
the same generic 401 when its payload carries no `"sub"` claim, or when
its subject email matches no stored user record. -/
theorem token_valid_but_no_user (secret : String) (now : Nat) (db : List User)
    (p : TokenPayload) (hexp : ¬ p.exp < now) :
    (p.sub = none →
      get_current_user secret now db (.signed p secret) = .error credentialsException) ∧
    (∀ email, p.sub = some email → findUserByEmail db email = none →
      get_current_user secret now db (.signed p secret) = .error credentialsException) := by
  have hdec : jwtDecode secret now (.signed p secret) = some p := by
    rw [jwtDecode]
    simp [hexp]
  constructor
  · intro hsub
    simp only [get_current_user, hdec, hsub]
  · intro email hsub hf
    simp only [get_current_user, hdec, hsub, hf]

/-- Witness for `token_valid_but_no_user`: a valid token for a subject
with no user record is rejected with the generic 401. -/
theorem token_valid_but_no_user_witness :
    get_current_user "s" 0 [] (.signed ⟨some "a@b.c", 5⟩ "s") =
      .error credentialsException :=
  (token_valid_but_no_user "s" 0 [] ⟨some "a@b.c", 5⟩ (by decide)).2 "a@b.c" rfl rfl

/-- Claim C8: listing contents returns exactly the records owned by the
requesting user — the same multiset as the ownership filter, hence all of
them including records with absent summary/sentiment — ordered by
creation time descending. -/
theorem list_contents_owner_sorted (db : List Content) (uid : Nat) :
    (∀ c, c ∈ list_contents db uid ↔ c ∈ db ∧ c.user_id = uid) ∧
    (list_contents db uid).Perm (db.filter (fun c => c.user_id == uid)) ∧
    (list_contents db uid).Sorted createdDesc := by
  refine ⟨?_, ?_, ?_⟩
  · intro c
    rw [list_contents, List.mem_insertionSort, List.mem_filter]
    simp
  · exact List.perm_insertionSort createdDesc _
  · exact List.sorted_insertionSort createdDesc _

/-- Claim C9: for every plaintext and every hash string the modelled
passlib verify returns a boolean and never raises; on a hash string it
does not recognize it returns false. -/
theorem verify_password_total (ctx : CryptContext) (plain hashed : String) :
    (∃ b, verify_password ctx plain hashed = .ok b) ∧
    (ctx.recognizes hashed = false →
      verify_password ctx plain hashed = .ok false) := by
  constructor
  · rw [verify_password, ctxVerify]
    by_cases h : ctx.recognizes hashed = true
    · exact ⟨ctx.accepts plain hashed, by simp [h]⟩
    · exact ⟨false, by simp [h]⟩
  · intro h
    rw [verify_password, ctxVerify, h]
    simp

/-- Witness for `verify_password_total`: verifying against an
unrecognized hash string returns false rather than raising. -/
theorem verify_password_total_witness :
    verify_password ⟨fun _ _ => true, fun _ => false⟩ "pw" "nothash" = .ok false :=
  (verify_password_total ⟨fun _ _ => true, fun _ => false⟩ "pw" "nothash").2 rfl

end ContentAPI
